import Mathlib

/-
Verification of surreality-auth (src/surreality_auth/middleware.py):
a shallow embedding of the JWT-validation / identity-extraction middleware
and proofs of its specified properties.

Modelling conventions:
* Python strings are Lean `String` / `List Char`.
* JSON claim values that the middleware inspects are modelled by `ClaimValue`
  (strings and integers; an absent key is `Option.none`).
* Python exceptions are explicit error values; `try/except` chains become
  matches over those values, in the source's handler order.
* `uuid.UUID(x)` (CPython stdlib) is modelled faithfully for string inputs:
  strip all occurrences of "urn:" and "uuid:", strip surrounding braces,
  remove hyphens, require exactly 32 remaining characters, and parse them
  with Python `int(_, 16)` semantics (surrounding ASCII whitespace, optional
  sign, optional 0x/0X prefix, single underscores between digits).
  For an `int` input, `uuid.UUID` raises AttributeError (`hex.replace` on a
  non-string), which `_is_valid_uuid` does not catch.
-/

/-- Whitespace accepted by Python int() parsing (ASCII subset). -/
def pyIsSpace (c : Char) : Bool :=
  c = ' ' || c = '\t' || c = '\n' || c = '\r' || c = '\x0b' || c = '\x0c'

/-- Value of one hexadecimal digit, if `c` is one (case-insensitive).
ASCII codes: digits 48-57, lowercase a-f 97-102, uppercase A-F 65-70. -/
def hexDigitVal (c : Char) : Option Nat :=
  let n := c.toNat
  if 48 ≤ n ∧ n ≤ 57 then some (n - 48)
  else if 97 ≤ n ∧ n ≤ 102 then some (n - 87)
  else if 65 ≤ n ∧ n ≤ 70 then some (n - 55)
  else none

/-- Fuel-driven model of Python `str.replace(pat, "")`: removes non-overlapping
occurrences of `pat` scanning left to right.  Fuel `l.length` always suffices
(each step consumes at least one character). -/
def replaceAllFuel (pat : List Char) : Nat → List Char → List Char
  | 0, l => l
  | _ + 1, [] => []
  | fuel + 1, c :: rest =>
      if !pat.isEmpty && List.isPrefixOf pat (c :: rest) then
        replaceAllFuel pat fuel (List.drop (pat.length - 1) rest)
      else
        c :: replaceAllFuel pat fuel rest

/-- Python `s.replace(pat, "")` on character lists. -/
def replaceAll (pat l : List Char) : List Char :=
  replaceAllFuel pat l.length l

/-- An opening or closing curly brace. -/
def isBraceChar (c : Char) : Bool :=
  c = Char.ofNat 123 || c = Char.ofNat 125

/-- Python `s.strip(braces)`: remove leading and trailing brace characters. -/
def pyStripBraces (l : List Char) : List Char :=
  ((l.dropWhile isBraceChar).reverse.dropWhile isBraceChar).reverse

/-- Strip surrounding whitespace, as Python int() does before parsing. -/
def pyStripSpaces (l : List Char) : List Char :=
  ((l.dropWhile pyIsSpace).reverse.dropWhile pyIsSpace).reverse

/-- Remaining hexadecimal digits after the first: Python int() allows a single
underscore between two digits. `acc` is the value parsed so far. -/
def hexTail (acc : Nat) : List Char → Option Nat
  | [] => some acc
  | '_' :: c :: rest =>
      match hexDigitVal c with
      | some d => hexTail (acc * 16 + d) rest
      | none => none
  | c :: rest =>
      match hexDigitVal c with
      | some d => hexTail (acc * 16 + d) rest
      | none => none

/-- One or more hexadecimal digits with single underscores between them. -/
def hexBodyVal (l : List Char) : Option Nat :=
  match l with
  | [] => none
  | c :: rest =>
      match hexDigitVal c with
      | some d => hexTail d rest
      | none => none

/-- Python int() allows one underscore right after the 0x prefix. -/
def dropUnderscoreHead : List Char → List Char
  | '_' :: r => r
  | r => r

/-- Optional `0x` / `0X` prefix accepted by Python `int(s, 16)`. -/
def stripHexMarker : List Char → List Char
  | '0' :: 'x' :: rest => dropUnderscoreHead rest
  | '0' :: 'X' :: rest => dropUnderscoreHead rest
  | l => l

/-- Model of Python `int(s, 16)`: `none` means ValueError. -/
def pyIntHexVal (s0 : List Char) : Option Int :=
  match pyStripSpaces s0 with
  | '+' :: rest => (hexBodyVal (stripHexMarker rest)).map (fun n => (n : Int))
  | '-' :: rest => (hexBodyVal (stripHexMarker rest)).map (fun n => -(n : Int))
  | rest => (hexBodyVal (stripHexMarker rest)).map (fun n => (n : Int))

/-- The normalization `uuid.UUID` applies to a string argument before hex
parsing: remove "urn:" then "uuid:" occurrences, strip braces, drop hyphens. -/
def uuidNormalizedHex (s : String) : List Char :=
  replaceAll ['-']
    (pyStripBraces (replaceAll "uuid:".toList (replaceAll "urn:".toList s.toList)))

/-- Model of `uuid.UUID(s)` succeeding on string `s` (no ValueError):
the normalized hex must have exactly 32 characters and parse in base 16.
(The subsequent 128-bit range check of `uuid.UUID` cannot fail on this path:
hyphens, hence minus signs, were removed, and 32 hex characters are < 2^128.) -/
def pyUuidAccepts (s : String) : Bool :=
  let h := uuidNormalizedHex s
  h.length == 32 && (pyIntHexVal h).isSome

/-- A JSON claim value the middleware inspects (strings and integers; an
absent key is modelled by `Option.none` at the payload level). -/
inductive ClaimValue
  | str (s : String)
  | int (n : Int)
deriving DecidableEq

/-- Python truthiness of a claim value: empty string and 0 are falsy. -/
def truthyValue : ClaimValue → Bool
  | .str s => s != ""
  | .int n => n != 0

/-- Python truthiness of `payload.get(key)` (None is falsy). -/
def truthyOpt : Option ClaimValue → Bool
  | none => false
  | some v => truthyValue v

/-- A decoded JWT payload: a JSON object, keys unique. -/
def Payload := List (String × ClaimValue)

/-- `payload.get(key)`: value of the first matching key, else None. -/
def payloadGet (p : List (String × ClaimValue)) (k : String) : Option ClaimValue :=
  match p with
  | [] => none
  | (k2, v) :: rest => if k2 = k then some v else payloadGet rest k

/-- Exceptions that can escape the `try` body of `get_current_account_id`:
PyJWT's ExpiredSignatureError and InvalidTokenError (matched in that order by
the source's handlers), the HTTPExceptions it raises itself, and any other
exception (e.g. the AttributeError escaping `_is_valid_uuid`); the latter two
are only caught by the final `except Exception` handler. -/
inductive AuthExn
  | expiredSignature (msg : String)
  | invalidToken (msg : String)
  | httpException (status : Nat) (detail : String)
  | otherError (msg : String)
deriving DecidableEq

/-- Python `str(e)` for the exceptions above.  For starlette/fastapi
HTTPException, `__str__` renders "<status_code>: <detail>". -/
def strOfExn : AuthExn → String
  | .expiredSignature m => m
  | .invalidToken m => m
  | .httpException st d => toString st ++ ": " ++ d
  | .otherError m => m

/-- A bearer token as seen by `jwt.decode`: `structuralError` is `some msg`
when the compact encoding itself is malformed (PyJWT DecodeError with that
detail), `alg` is the algorithm named in the header, `signedWith` the secret
whose HMAC-SHA256 signature the token carries (signature verification
succeeds iff it equals the verifier's secret), and `payload` the claims. -/
structure Token where
  structuralError : Option String
  alg : String
  signedWith : String
  payload : List (String × ClaimValue)

/-- PyJWT expiry validation (leeway 0): `exp` must be in the future.  A
string `exp` goes through `int()`; a non-integer raises DecodeError. -/
def validateExp (p : List (String × ClaimValue)) (now : Int) : Option AuthExn :=
  match payloadGet p "exp" with
  | none => none
  | some (.int e) =>
      if e ≤ now then some (.expiredSignature "Signature has expired") else none
  | some (.str s) =>
      match s.toInt? with
      | none => some (.invalidToken "Expiration Time claim (exp) must be an integer.")
      | some e =>
          if e ≤ now then some (.expiredSignature "Signature has expired") else none

/-- PyJWT audience validation against the literal audience "authenticated":
a missing `aud` claim raises MissingRequiredClaimError, a non-string one
InvalidAudienceError, and a mismatching one InvalidAudienceError — all
subclasses of InvalidTokenError. -/
def validateAud (p : List (String × ClaimValue)) : Option AuthExn :=
  match payloadGet p "aud" with
  | none => some (.invalidToken "Token is missing the \"aud\" claim")
  | some (.str a) =>
      if a = "authenticated" then none
      else some (.invalidToken "Audience doesn\x27t match")
  | some (.int _) => some (.invalidToken "Invalid claim format in token")

/-- Model of `jwt.decode(token, secret, algorithms=["HS256"],
audience="authenticated")` at time `now`: structural decoding, algorithm
check, signature verification, then claim validation (exp before aud,
PyJWT's order). -/
def jwtDecode (t : Token) (secret : String) (now : Int) :
    Except AuthExn (List (String × ClaimValue)) :=
  match t.structuralError with
  | some m => .error (.invalidToken m)
  | none =>
      if t.alg = "HS256" then
        if t.signedWith = secret then
          match validateExp t.payload now with
          | some e => .error e
          | none =>
              match validateAud t.payload with
              | some e => .error e
              | none => .ok t.payload
        else .error (.invalidToken "Signature verification failed")
      else .error (.invalidToken "The specified alg value is not allowed")

/-- Exceptions of the stdlib uuid path: `_is_valid_uuid` catches ValueError
and TypeError but not AttributeError. -/
inductive UuidExn
  | valueError (msg : String)
  | typeError (msg : String)
  | attributeError (msg : String)
deriving DecidableEq

/-- Model of `uuid.UUID(x)`: a string either parses or raises ValueError; an
integer raises AttributeError from `hex.replace` before anything else. -/
def uuidCtor : ClaimValue → Except UuidExn Unit
  | .str s =>
      if pyUuidAccepts s then .ok ()
      else .error (.valueError "badly formed hexadecimal UUID string")
  | .int _ =>
      .error (.attributeError "\x27int\x27 object has no attribute \x27replace\x27")

/-- `AuthMiddleware._is_valid_uuid`: True on success, False on
ValueError/TypeError; any other exception propagates. -/
def isValidUuid (v : ClaimValue) : Except UuidExn Bool :=
  match uuidCtor v with
  | .ok _ => .ok true
  | .error (.valueError _) => .ok false
  | .error (.typeError _) => .ok false
  | .error (.attributeError m) => .error (.attributeError m)

/-- Line 72 of middleware.py: `payload.get("sub") or payload.get("account_id")`.
Python `or` yields the second operand whenever the first is falsy. -/
def extractAccountId (p : List (String × ClaimValue)) : Option ClaimValue :=
  if truthyOpt (payloadGet p "sub") then payloadGet p "sub"
  else payloadGet p "account_id"

/-- The `try` body of `get_current_account_id` (lines 62-87): decode, select
the identifier, raise 401 HTTPExceptions for missing/malformed identifiers
(inside the try!), and return the identifier on success.  An AttributeError
escaping `_is_valid_uuid` surfaces as an uncategorized exception. -/
def authTryBody (jwt_secret : String) (now : Int) (t : Token) :
    Except AuthExn ClaimValue :=
  match jwtDecode t jwt_secret now with
  | .error e => .error e
  | .ok payload =>
      match extractAccountId payload with
      | none => .error (.httpException 401 "Invalid token: missing account_id")
      | some v =>
          if truthyValue v then
            match isValidUuid v with
            | .ok true => .ok v
            | .ok false => .error (.httpException 401 "Invalid token: malformed account_id")
            | .error (.valueError m) => .error (.otherError m)
            | .error (.typeError m) => .error (.otherError m)
            | .error (.attributeError m) => .error (.otherError m)
          else .error (.httpException 401 "Invalid token: missing account_id")

/-- What the caller of `get_current_account_id` observes: the returned
identifier, or the HTTPException that reaches the request pipeline. -/
inductive AuthOutcome
  | ok (account_id : ClaimValue)
  | httpError (status : Nat) (detail : String)
deriving DecidableEq

/-- `AuthMiddleware.get_current_account_id` (lines 44-94): the try body
followed by the three handlers in source order.  ExpiredSignatureError maps
to 401 "Token has expired"; InvalidTokenError to 401 "Invalid token: ...";
everything else — including the 401 HTTPExceptions the body itself raised —
is caught by `except Exception` and re-raised as 500 "Authentication error:
str(e)". -/
def get_current_account_id (jwt_secret : String) (now : Int) (t : Token) :
    AuthOutcome :=
  match authTryBody jwt_secret now t with
  | .ok v => .ok v
  | .error (.expiredSignature _) => .httpError 401 "Token has expired"
  | .error (.invalidToken m) => .httpError 401 ("Invalid token: " ++ m)
  | .error e => .httpError 500 ("Authentication error: " ++ strOfExn e)

/-- The Supabase client as `verify_account_exists` uses it: the account_id
column of the `users` table, plus `queryError = some msg` when the
`.execute()` call raises.  The query
`table("users").select("account_id").eq("account_id", id).limit(1).execute()`
returns the matching rows, at most one. -/
structure SupabaseClient where
  usersAccountIds : List String
  queryError : Option String

/-- Result of the limited select: raised error or the `result.data` rows. -/
def executeSelectLimit1 (c : SupabaseClient) (account_id : String) :
    Except String (List String) :=
  match c.queryError with
  | some m => .error m
  | none => .ok ((c.usersAccountIds.filter (fun r => r = account_id)).take 1)

/-- `AuthMiddleware.verify_account_exists` (lines 109-129): True iff the
query returns at least one row; any exception yields False. -/
def verify_account_exists (c : SupabaseClient) (account_id : String) : Bool :=
  match executeSelectLimit1 c account_id with
  | .ok data => data.length > 0
  | .error _ => false

/-- Python truthiness of `os.getenv(...)`: absent (None) and "" are falsy. -/
def truthyEnv : Option String → Bool
  | none => false
  | some s => s != ""

/-- The state `AuthMiddleware.__init__` establishes: the three configuration
values (held immutably; no later code path assigns them). -/
structure AuthMiddleware where
  supabase_url : String
  service_role_key : String
  jwt_secret : String

/-- `AuthMiddleware.__init__` (lines 29-42): read the three environment
variables and raise ValueError unless all three are truthy
(`if not all([...])`).  The supabase client construction itself is an
external collaborator and is not modelled. -/
def AuthMiddleware.construct (env : String → Option String) :
    Except String AuthMiddleware :=
  let url := env "SUPABASE_URL"
  let key := env "SUPABASE_SERVICE_ROLE_KEY"
  let secret := env "SUPABASE_JWT_SECRET"
  if truthyEnv url && truthyEnv key && truthyEnv secret then
    .ok { supabase_url := url.getD "", service_role_key := key.getD "",
          jwt_secret := secret.getD "" }
  else
    .error ("Missing required environment variables: " ++
      "SUPABASE_URL, SUPABASE_SERVICE_ROLE_KEY, SUPABASE_JWT_SECRET")

/-- The spec's concrete success scenario: secret "s3cret", canonical UUID
`sub`, audience "authenticated", future expiry (times measured at now = 0). -/
def tokGood : Token :=
  { structuralError := none, alg := "HS256", signedWith := "s3cret",
    payload := [("sub", .str "11111111-1111-1111-1111-111111111111"),
                ("aud", .str "authenticated"), ("exp", .int 1000)] }
/-- Validly signed unexpired token with empty-string `sub` and no
`account_id`. -/
def tokEmptySub : Token :=
  { structuralError := none, alg := "HS256", signedWith := "s3cret",
    payload := [("sub", .str ""), ("aud", .str "authenticated"), ("exp", .int 1000)] }
/-- Validly signed unexpired token whose `sub` is not a UUID. -/
def tokBadUuid : Token :=
  { structuralError := none, alg := "HS256", signedWith := "s3cret",
    payload := [("sub", .str "not-a-uuid"), ("aud", .str "authenticated"), ("exp", .int 1000)] }
/-- Validly signed unexpired token whose `sub` is the integer 5. -/
def tokIntSub : Token :=
  { structuralError := none, alg := "HS256", signedWith := "s3cret",
    payload := [("sub", .int 5), ("aud", .str "authenticated"), ("exp", .int 1000)] }
/-- Otherwise perfect token whose expiry is in the past. -/
def tokExpired : Token :=
  { structuralError := none, alg := "HS256", signedWith := "s3cret",
    payload := [("sub", .str "11111111-1111-1111-1111-111111111111"),
                ("aud", .str "authenticated"), ("exp", .int (-1))] }

/-- A string accepted by the UUID parser is non-empty. -/
lemma pyUuidAccepts_ne_empty {s : String} (h : pyUuidAccepts s = true) : s ≠ "" := by
  intro hs
  subst hs
  simp [show pyUuidAccepts "" = false from rfl] at h

/-- Helper: filtering for `id` keeps a row iff `id` is in the column. -/
lemma filter_mem_pos (l : List String) (id : String) :
    0 < (l.filter (fun r => r = id)).length ↔ id ∈ l := by
  induction l with
  | nil => simp
  | cons a rest ih =>
      simp only [List.filter_cons]
      by_cases h : a = id
      · subst h
        simp
      · simp [h, ih, Ne.symm h]

/-- C4: a token correctly signed with the configured secret under HMAC-SHA256,
unexpired, with audience "authenticated" and a UUID-valued `sub` claim, makes
`get_current_account_id` succeed with exactly that `sub` value. -/
theorem c4_valid_token_returns_sub
    (secret : String) (now : Int) (t : Token) (s : String)
    (hstruct : t.structuralError = none)
    (halg : t.alg = "HS256")
    (hsig : t.signedWith = secret)
    (hexp : payloadGet t.payload "exp" = none ∨
            ∃ e, payloadGet t.payload "exp" = some (.int e) ∧ now < e)
    (haud : payloadGet t.payload "aud" = some (.str "authenticated"))
    (hsub : payloadGet t.payload "sub" = some (.str s))
    (huuid : pyUuidAccepts s = true) :
    get_current_account_id secret now t = .ok (.str s) := by
  have hs : s ≠ "" := pyUuidAccepts_ne_empty huuid
  have hexp' : validateExp t.payload now = none := by
    rcases hexp with h | ⟨e, h, hlt⟩
    · simp [validateExp, h]
    · simp [validateExp, h]
      omega
  have haud' : validateAud t.payload = none := by
    simp [validateAud, haud]
  have hdec : jwtDecode t secret now = .ok t.payload := by
    simp [jwtDecode, hstruct, halg, hsig, hexp', haud']
  have hext : extractAccountId t.payload = some (.str s) := by
    simp [extractAccountId, hsub, truthyOpt, truthyValue, hs]
  simp [get_current_account_id, authTryBody, hdec, hext, truthyValue, hs,
        isValidUuid, uuidCtor, huuid]

/-- C4 witness: the spec's concrete scenario (secret "s3cret", canonical
UUID `sub`, audience "authenticated", future expiry). -/
theorem c4_valid_token_returns_sub_witness :
    get_current_account_id "s3cret" 0 tokGood
      = .ok (.str "11111111-1111-1111-1111-111111111111") :=
  c4_valid_token_returns_sub "s3cret" 0 tokGood
    "11111111-1111-1111-1111-111111111111" rfl rfl rfl
    (Or.inr ⟨1000, rfl, by decide⟩) rfl rfl (by decide)

/-- C3: identifier selection looks up `sub` first and falls back to
`account_id`: with `account_id` present and no `sub` the `account_id` value
is selected; with a non-empty string `sub` present, `sub` wins. -/
theorem c3_sub_first_then_account_id :
    ∀ (p : List (String × ClaimValue)),
      (∀ v, payloadGet p "sub" = none → payloadGet p "account_id" = some v →
          extractAccountId p = some v)
      ∧ (∀ s, payloadGet p "sub" = some (.str s) → s ≠ "" →
          extractAccountId p = some (.str s)) := by
  intro p
  constructor
  · intro v hsub hacc
    simp [extractAccountId, hsub, truthyOpt, hacc]
  · intro s hsub hs
    simp [extractAccountId, hsub, truthyOpt, truthyValue, hs]

/-- C3 witness: fallback on a `account_id`-only payload, and `sub` winning
when both claims are present. -/
theorem c3_sub_first_then_account_id_witness :
    extractAccountId [("account_id", .str "22222222-2222-2222-2222-222222222222")]
      = some (.str "22222222-2222-2222-2222-222222222222")
    ∧ extractAccountId
        [("sub", .str "11111111-1111-1111-1111-111111111111"),
         ("account_id", .str "22222222-2222-2222-2222-222222222222")]
      = some (.str "11111111-1111-1111-1111-111111111111") :=
  ⟨(c3_sub_first_then_account_id _).1 _ rfl rfl,
   (c3_sub_first_then_account_id _).2 _ rfl (by decide)⟩

/-- C5: a structurally valid, correctly signed token whose `exp` claim is in
the past always yields 401 "Token has expired" (the audience claim is left
arbitrary: expiry is validated first, so the other claims cannot mask it). -/
theorem c5_expired_token_401
    (secret : String) (now : Int) (t : Token) (e : Int)
    (hstruct : t.structuralError = none)
    (halg : t.alg = "HS256")
    (hsig : t.signedWith = secret)
    (hexp : payloadGet t.payload "exp" = some (.int e))
    (hpast : e < now) :
    get_current_account_id secret now t = .httpError 401 "Token has expired" := by
  have hle : e ≤ now := le_of_lt hpast
  have hv : validateExp t.payload now
      = some (.expiredSignature "Signature has expired") := by
    simp [validateExp, hexp, hle]
  simp [get_current_account_id, authTryBody, jwtDecode, hstruct, halg, hsig, hv]

/-- C5 witness: otherwise perfect token with expiry one unit in the past. -/
theorem c5_expired_token_401_witness :
    get_current_account_id "s3cret" 0 tokExpired
      = .httpError 401 "Token has expired" :=
  c5_expired_token_401 "s3cret" 0 tokExpired (-1) rfl rfl rfl rfl (by decide)

/-- C6: a signature made with a different secret — and more generally any
bad encoding or non-HS256 algorithm — yields 401 "Invalid token: <detail>",
whatever the payload contains. -/
theorem c6_wrong_secret_401_invalid_token
    (secret : String) (now : Int) (t : Token)
    (h : t.signedWith ≠ secret ∨ t.structuralError ≠ none ∨ t.alg ≠ "HS256") :
    ∃ d, get_current_account_id secret now t
      = .httpError 401 ("Invalid token: " ++ d) := by
  cases hs : t.structuralError with
  | some m =>
      exact ⟨m, by simp [get_current_account_id, authTryBody, jwtDecode, hs]⟩
  | none =>
      by_cases ha : t.alg = "HS256"
      · by_cases hw : t.signedWith = secret
        · rcases h with h | h | h
          · exact absurd hw h
          · exact absurd hs h
          · exact absurd ha h
        · exact ⟨"Signature verification failed",
            by simp [get_current_account_id, authTryBody, jwtDecode, hs, ha, hw]⟩
      · exact ⟨"The specified alg value is not allowed",
          by simp [get_current_account_id, authTryBody, jwtDecode, hs, ha]⟩

/-- C6 witness: the valid token of C4 verified against a different secret. -/
theorem c6_wrong_secret_401_invalid_token_witness :
    ∃ d, get_current_account_id "wrong-secret" 0 tokGood
      = .httpError 401 ("Invalid token: " ++ d) :=
  c6_wrong_secret_401_invalid_token "wrong-secret" 0 tokGood (Or.inl (by decide))

/-- C7: `verify_account_exists` is True iff the query raises nothing and at
least one row of the `users` table matches the identifier; every store error
is swallowed into False, indistinguishable from absence; the operation is a
total Boolean function and never raises. -/
theorem c7_account_exists_iff_row_found :
    ∀ (c : SupabaseClient) (id : String),
      (verify_account_exists c id = true ↔
        (c.queryError = none ∧ id ∈ c.usersAccountIds))
      ∧ (∀ m, c.queryError = some m → verify_account_exists c id = false) := by
  intro c id
  constructor
  · cases hq : c.queryError with
    | some m => simp [verify_account_exists, executeSelectLimit1, hq]
    | none =>
        simp [verify_account_exists, executeSelectLimit1, hq]
        exact filter_mem_pos c.usersAccountIds id
  · intro m hq
    simp [verify_account_exists, executeSelectLimit1, hq]

/-- C7 witness: a store holding the row answers True; the same store with a
fault injected, and a store without the row, both answer False. -/
theorem c7_account_exists_iff_row_found_witness :
    verify_account_exists
        { usersAccountIds := ["22222222-2222-2222-2222-222222222222"],
          queryError := none } "22222222-2222-2222-2222-222222222222" = true
    ∧ verify_account_exists
        { usersAccountIds := ["22222222-2222-2222-2222-222222222222"],
          queryError := some "connection refused" }
        "22222222-2222-2222-2222-222222222222" = false
    ∧ verify_account_exists
        { usersAccountIds := [], queryError := none }
        "22222222-2222-2222-2222-222222222222" = false :=
  ⟨(c7_account_exists_iff_row_found _ _).1.mpr ⟨rfl, by decide⟩,
   (c7_account_exists_iff_row_found _ _).2 "connection refused" rfl,
   by
    have h := (c7_account_exists_iff_row_found
      { usersAccountIds := [], queryError := none }
      "22222222-2222-2222-2222-222222222222").1
    revert h
    decide⟩

/-- C8: `AuthMiddleware.__init__` raises (no middleware is constructed) iff
any of the three configuration values is absent or empty; with all three
present and non-empty it succeeds and holds exactly those values. -/
theorem c8_construction_iff_config_present :
    ∀ (env : String → Option String),
      ((∃ e, AuthMiddleware.construct env = .error e) ↔
        ¬(truthyEnv (env "SUPABASE_URL") = true ∧
          truthyEnv (env "SUPABASE_SERVICE_ROLE_KEY") = true ∧
          truthyEnv (env "SUPABASE_JWT_SECRET") = true))
      ∧ (∀ u k s, env "SUPABASE_URL" = some u →
          env "SUPABASE_SERVICE_ROLE_KEY" = some k →
          env "SUPABASE_JWT_SECRET" = some s →
          u ≠ "" → k ≠ "" → s ≠ "" →
          AuthMiddleware.construct env =
            .ok { supabase_url := u, service_role_key := k, jwt_secret := s }) := by
  intro env
  constructor
  · by_cases h : truthyEnv (env "SUPABASE_URL") = true ∧
        truthyEnv (env "SUPABASE_SERVICE_ROLE_KEY") = true ∧
        truthyEnv (env "SUPABASE_JWT_SECRET") = true
    · rcases h with ⟨h1, h2, h3⟩
      simp [AuthMiddleware.construct, h1, h2, h3]
    · constructor
      · intro _
        exact h
      · intro _
        refine ⟨"Missing required environment variables: " ++
          "SUPABASE_URL, SUPABASE_SERVICE_ROLE_KEY, SUPABASE_JWT_SECRET", ?_⟩
        simp [AuthMiddleware.construct]
        intro h1 h2
        rcases Bool.eq_false_or_eq_true (truthyEnv (env "SUPABASE_JWT_SECRET")) with h3 | h3
        · exact absurd ⟨h1, h2, h3⟩ h
        · exact h3
  · intro u k s hu hk hs hu0 hk0 hs0
    simp [AuthMiddleware.construct, hu, hk, hs, truthyEnv, hu0, hk0, hs0]

/-- C8 witness: construction succeeds on a complete environment and fails
when the JWT secret is set to the empty string. -/
theorem c8_construction_iff_config_present_witness :
    AuthMiddleware.construct
        (fun k => if k = "SUPABASE_URL" then some "https://example.supabase.co"
          else if k = "SUPABASE_SERVICE_ROLE_KEY" then some "service-role-key"
          else if k = "SUPABASE_JWT_SECRET" then some "s3cret" else none)
      = .ok { supabase_url := "https://example.supabase.co",
              service_role_key := "service-role-key", jwt_secret := "s3cret" }
    ∧ (∃ e, AuthMiddleware.construct
        (fun k => if k = "SUPABASE_URL" then some "https://example.supabase.co"
          else if k = "SUPABASE_SERVICE_ROLE_KEY" then some "service-role-key"
          else if k = "SUPABASE_JWT_SECRET" then some "" else none)
      = .error e) :=
  ⟨(c8_construction_iff_config_present _).2
      "https://example.supabase.co" "service-role-key" "s3cret"
      rfl rfl rfl (by decide) (by decide) (by decide),
   (c8_construction_iff_config_present _).1.mpr (by decide)⟩

/-- C9: every identifier `get_current_account_id` returns has passed
`_is_valid_uuid`, whose acceptance is exactly the permissiveness of the
standard `uuid.UUID` parser — case-insensitive, braces and urn-prefixed
forms included — and "not-a-uuid" is rejected. -/
theorem c9_returned_identifier_is_validated_uuid :
    (∀ (secret : String) (now : Int) (t : Token) (v : ClaimValue),
        get_current_account_id secret now t = .ok v → isValidUuid v = .ok true)
    ∧ isValidUuid (.str "\x7bAAAAAAAA-AAAA-AAAA-AAAA-AAAAAAAAAAAA\x7d") = .ok true
    ∧ isValidUuid (.str "urn:uuid:12345678-1234-5678-1234-567812345678") = .ok true
    ∧ isValidUuid (.str "not-a-uuid") = .ok false := by
  refine ⟨?_, by rfl, by rfl, by rfl⟩
  intro secret now t v h
  unfold get_current_account_id at h
  cases hb : authTryBody secret now t with
  | error e =>
      rw [hb] at h
      cases e <;> simp at h
  | ok w =>
      rw [hb] at h
      simp at h
      subst h
      unfold authTryBody at hb
      cases hd : jwtDecode t secret now with
      | error e => rw [hd] at hb; simp at hb
      | ok payload =>
          rw [hd] at hb
          simp only at hb
          cases he : extractAccountId payload with
          | none => rw [he] at hb; simp at hb
          | some w' =>
              rw [he] at hb
              simp only at hb
              by_cases ht : truthyValue w' = true
              · rw [if_pos ht] at hb
                cases hu : isValidUuid w' with
                | ok b =>
                    cases b with
                    | true =>
                        rw [hu] at hb
                        simp at hb
                        subst hb
                        exact hu
                    | false => rw [hu] at hb; simp at hb
                | error e =>
                    rw [hu] at hb
                    cases e <;> simp at hb
              · rw [if_neg ht] at hb
                simp at hb

/-- C9 witness: the identifier returned for the valid concrete token has
passed UUID validation. -/
theorem c9_returned_identifier_is_validated_uuid_witness :
    isValidUuid (.str "11111111-1111-1111-1111-111111111111") = .ok true :=
  c9_returned_identifier_is_validated_uuid.1 "s3cret" 0 tokGood
    (.str "11111111-1111-1111-1111-111111111111") (by decide)

/-- C10: a verified token whose selected identifier is a non-zero integer
(truthy but not a string) makes `get_current_account_id` fail with HTTP 500
"Authentication error: ...": `uuid.UUID` raises AttributeError on the
non-string, `_is_valid_uuid` catches only ValueError and TypeError, and the
generic `except Exception` handler turns it into a 500. -/
theorem c10_nonstring_identifier_500
    (secret : String) (now : Int) (t : Token)
    (payload : List (String × ClaimValue)) (n : Int)
    (hdec : jwtDecode t secret now = .ok payload)
    (hext : extractAccountId payload = some (.int n))
    (hn : n ≠ 0) :
    get_current_account_id secret now t = .httpError 500
      ("Authentication error: " ++
        "\x27int\x27 object has no attribute \x27replace\x27") := by
  simp [get_current_account_id, authTryBody, hdec, hext, truthyValue, hn,
        isValidUuid, uuidCtor, strOfExn]

/-- C10 witness: an otherwise valid token with the integer claim `sub = 5`. -/
theorem c10_nonstring_identifier_500_witness :
    get_current_account_id "s3cret" 0 tokIntSub = .httpError 500
      ("Authentication error: " ++
        "\x27int\x27 object has no attribute \x27replace\x27") :=
  c10_nonstring_identifier_500 "s3cret" 0 tokIntSub tokIntSub.payload 5
    rfl rfl (by decide)

/-- C1: the claim states that a verified token with no non-empty identifier
fails as HTTP 401 "Invalid token: missing account_id".  The code instead
surfaces HTTP 500: the 401 HTTPException is raised inside the `try` block
and the `except Exception` handler catches it and re-raises it as
500 "Authentication error: 401: Invalid token: missing account_id".
This theorem evaluates the pipeline at the failing input (valid signature,
audience and expiry; `sub` is the empty string; no `account_id`). -/
theorem c1_missing_identifier_surfaces_500 :
    get_current_account_id "s3cret" 0 tokEmptySub = .httpError 500
      "Authentication error: 401: Invalid token: missing account_id" := by
  decide

/-- C2: the claim states that a verified token with a non-empty non-UUID
identifier fails as HTTP 401 "Invalid token: malformed account_id".  The code
instead surfaces HTTP 500: the 401 HTTPException is raised inside the `try`
block and the `except Exception` handler catches it and re-raises it as
500 "Authentication error: 401: Invalid token: malformed account_id".
This theorem evaluates the pipeline at the failing input
(`sub = "not-a-uuid"`, everything else valid). -/
theorem c2_malformed_identifier_surfaces_500 :
    get_current_account_id "s3cret" 0 tokBadUuid = .httpError 500
      "Authentication error: 401: Invalid token: malformed account_id" := by
  decide
